import Mathlib

/-!
Shallow embedding of the weather_collect ingestion server
(src/ingest_server/app.py and src/ingest_server/models.py).

The HTTP handler `save_data` is modelled as a pure function from the
inbound request, the database state and a commit-success oracle to an
HTTP outcome and the resulting database state.  The database is the
pair of the station registry (table weather_station) and the committed
observation rows (table weather_observation).  JSON payload values are
modelled as rationals (the value column is a numeric scalar).  Python
exceptions that escape the handler (UnboundLocalError, a failing
commit) are modelled by the `pythonError` outcome, distinct from every
structured HTTP response the handler itself builds.
-/

set_option autoImplicit false

namespace WeatherCollect

/-- Row of table weather_station (models.py, class WeatherStation).
The primary key, display name and the opaque post key; the credential
is compared for exact string equality. -/
structure WeatherStation where
  station_id : Nat
  station_name : String
  station_post_key : String
  deriving Repr, DecidableEq

/-- Row of table weather_observation (models.py, class WeatherObservation).
The server-assigned observation_id is omitted: committed rows are kept in
insertion order in a list, which already distinguishes duplicates. -/
structure WeatherObservation where
  station_id : Nat
  observation_datetime : String
  var_name : String
  value : Rat
  deriving Repr, DecidableEq

/-- The JSON payload of a POST /data request as the handler consults it:
`data\x5b"time"\x5d` (a timestamp string, absent when the key is missing) and
`data\x5bvar_name\x5d` for the enumerated variable names (an association
list of numeric fields). -/
structure Payload where
  time : Option String
  vars : List (String × Rat)
  deriving Repr, DecidableEq

/-- The parts of the inbound request the handler reads: the Authorization
header (absent models the KeyError branch) and the JSON body. -/
structure Request where
  authorization : Option String
  json : Payload
  deriving Repr, DecidableEq

/-- The persistent store: the station registry and the committed
observation rows. -/
structure DB where
  stations : List WeatherStation
  observations : List WeatherObservation
  deriving Repr, DecidableEq

/-- Outcome of one request: either a structured (body, status-code)
response built by the handler, or a Python exception escaping it. -/
inductive HttpOutcome where
  | response : List (String × String) → Nat → HttpOutcome
  | pythonError : String → HttpOutcome
  deriving Repr, DecidableEq

/-- The two exceptions `.one()` can raise in validate_station
(sqlalchemy NoResultFound / MultipleResultsFound). -/
inductive LookupError where
  | noResultFound
  | multipleResultsFound
  deriving Repr, DecidableEq

/-- app.py validate_station: select the stations whose station_post_key
equals api_key and call `.one()`: zero matches raise NoResultFound,
two or more raise MultipleResultsFound, exactly one is returned. -/
def validate_station (api_key : String) (stations : List WeatherStation) :
    Except LookupError WeatherStation :=
  match stations.filter (fun s => s.station_post_key == api_key) with
  | [] => .error .noResultFound
  | [s] => .ok s
  | _ :: _ :: _ => .error .multipleResultsFound

/-- Lookup of `data\x5bname\x5d` in the JSON payload: some value when the
key is present, none for the KeyError branch. -/
def lookupVar (name : String) (vars : List (String × Rat)) : Option Rat :=
  match vars.find? (fun p => p.1 == name) with
  | some p => some p.2
  | none => none

/-- The fixed enumerated variable set, in the order the loop visits it. -/
def varNames : List String := ["temperature", "pressure", "humidity"]

/-- The message of the Python exception raised when obs_value is read
before any assignment. -/
def unboundLocalMsg : String :=
  "UnboundLocalError: local variable \x27obs_value\x27 referenced before assignment"

/-- The `for var_name in \x5b...\x5d` loop of save_data (app.py lines
115-132).  `prev` is the value the local obs_value holds on entering the
iteration (none while still unassigned).  A present key rebinds it; on
KeyError only a warning is logged and the row is still constructed from
the current obs_value, so an unassigned obs_value raises
UnboundLocalError and an absent variable inherits the previous value. -/
def stageLoop (sid : Nat) (obs_time : String) (vars : List (String × Rat)) :
    List String → Option Rat → Except String (List WeatherObservation)
  | [], _ => .ok []
  | name :: rest, prev =>
    let cur : Option Rat :=
      match lookupVar name vars with
      | some x => some x
      | none => prev
    match cur with
    | none => .error unboundLocalMsg
    | some x =>
      match stageLoop sid obs_time vars rest (some x) with
      | .error e => .error e
      | .ok tail =>
        .ok ({ station_id := sid, observation_datetime := obs_time,
               var_name := name, value := x } :: tail)

/-- Body of the 401 response for a missing Authorization header. -/
def missingKeyBody : List (String × String) :=
  [("status", "error"),
   ("message", "Post requests require header \x7b\x27Authorization\x27: API_KEY\x7d")]

/-- Body of the 403 response for an unresolvable API key. -/
def invalidKeyBody : List (String × String) :=
  [("status", "error"), ("message", "Invalid API key")]

/-- Body of the 400 response for a payload without a time key. -/
def missingTimeBody : List (String × String) :=
  [("status", "error"), ("message", "Data missing time")]

/-- Body of the 201 success response. -/
def successBody : List (String × String) :=
  [("status", "success")]

/-- app.py save_data (the POST /data handler).  `commitOk` is the oracle
for session.commit(): true means the single commit of the staged batch
succeeds and appends every staged row at once; false means commit raises,
the context manager rolls the transaction back and the exception escapes
the handler, leaving the store unchanged. -/
def save_data (req : Request) (db : DB) (commitOk : Bool) : HttpOutcome × DB :=
  match req.authorization with
  | none => (.response missingKeyBody 401, db)
  | some api_key =>
    match validate_station api_key db.stations with
    | .error _ => (.response invalidKeyBody 403, db)
    | .ok weather_station =>
      match req.json.time with
      | none => (.response missingTimeBody 400, db)
      | some obs_time =>
        match stageLoop weather_station.station_id obs_time req.json.vars
            varNames none with
        | .error e => (.pythonError e, db)
        | .ok staged =>
          if commitOk then
            (.response successBody 201,
             { db with observations := db.observations ++ staged })
          else
            (.pythonError "PersistenceFailure: commit raised, batch rolled back",
             db)

/-- A registered station used by the concrete scenarios. -/
def demoStation : WeatherStation :=
  { station_id := 1, station_name := "roof", station_post_key := "key-1" }

/-- A store holding exactly the demo station and no observations. -/
def demoDB : DB := { stations := [demoStation], observations := [] }

/-- Scenario D request: valid key, time plus temperature and humidity,
no pressure. -/
def scenarioD : Request :=
  { authorization := some "key-1",
    json := { time := some "2024-01-01T00:00:00Z",
              vars := [("temperature", mkRat 43 2), ("humidity", 55)] } }

/-- A registry holding two stations that share the same post key, the
data-integrity fault that makes `.one()` raise MultipleResultsFound. -/
def dupDB : DB :=
  { stations :=
      [demoStation,
       { station_id := 2, station_name := "garden", station_post_key := "key-1" }],
    observations := [] }

/-- The value of the most recent present variable among `names` (in
order), used to state the stale-value property of the staging loop:
none when no name in the list is present in the payload. -/
def lastPresent (vars : List (String × Rat)) (names : List String) : Option Rat :=
  names.foldl
    (fun acc n =>
      match lookupVar n vars with
      | some x => some x
      | none => acc)
    none

/-- A successful staging run stages one row per visited name. -/
theorem stageLoop_length (sid : Nat) (t : String) (vars : List (String × Rat)) :
    ∀ (names : List String) (prev : Option Rat) (rows : List WeatherObservation),
      stageLoop sid t vars names prev = .ok rows → rows.length = names.length := by
  intro names
  induction names with
  | nil =>
    intro prev rows h
    simp only [stageLoop, Except.ok.injEq] at h
    simp [← h]
  | cons name rest ih =>
    intro prev rows h
    cases hl : lookupVar name vars with
    | some x =>
      simp only [stageLoop, hl] at h
      cases hr : stageLoop sid t vars rest (some x) with
      | error e => rw [hr] at h; exact Except.noConfusion h
      | ok tail =>
        rw [hr] at h
        simp only [Except.ok.injEq] at h
        subst h
        simp [ih (some x) tail hr]
    | none =>
      cases prev with
      | none =>
        simp only [stageLoop, hl] at h
        exact Except.noConfusion h
      | some x =>
        simp only [stageLoop, hl] at h
        cases hr : stageLoop sid t vars rest (some x) with
        | error e => rw [hr] at h; exact Except.noConfusion h
        | ok tail =>
          rw [hr] at h
          simp only [Except.ok.injEq] at h
          subst h
          simp [ih (some x) tail hr]

/-- Forward evaluation of save_data on the success path. -/
theorem save_data_ok_eq (req : Request) (db : DB) (k : String)
    (s : WeatherStation) (t : String) (rows : List WeatherObservation)
    (ha : req.authorization = some k)
    (hv : validate_station k db.stations = .ok s)
    (ht : req.json.time = some t)
    (hs : stageLoop s.station_id t req.json.vars varNames none = .ok rows) :
    save_data req db true =
      (.response successBody 201,
       { db with observations := db.observations ++ rows }) := by
  simp [save_data, ha, hv, ht, hs]

/-- Inversion of save_data on the success path: a 201 response pins down
every branch taken and the resulting store. -/
theorem save_data_ok_inv (req : Request) (db : DB)
    (h : (save_data req db true).1 = .response successBody 201) :
    ∃ (k : String) (s : WeatherStation) (t : String)
      (rows : List WeatherObservation),
      req.authorization = some k ∧
      validate_station k db.stations = .ok s ∧
      req.json.time = some t ∧
      stageLoop s.station_id t req.json.vars varNames none = .ok rows ∧
      (save_data req db true).2 =
        { db with observations := db.observations ++ rows } := by
  cases ha : req.authorization with
  | none =>
    simp only [save_data, ha] at h
    exact absurd h (by decide)
  | some k =>
    cases hv : validate_station k db.stations with
    | error e =>
      simp only [save_data, ha, hv] at h
      exact absurd h (by decide)
    | ok s =>
      cases ht : req.json.time with
      | none =>
        simp only [save_data, ha, hv, ht] at h
        exact absurd h (by decide)
      | some t =>
        cases hs : stageLoop s.station_id t req.json.vars varNames none with
        | error e =>
          simp only [save_data, ha, hv, ht, hs] at h
          cases h
        | ok rows =>
          exact ⟨k, s, t, rows, rfl, hv, rfl, hs, by
            simp [save_data, ha, hv, ht, hs]⟩

/-- C2: for every POST /data request with a valid credential whose payload
has no time field, the handler returns HTTP 400 with body
status=error, message=Data missing time, and the store is unchanged
(zero rows persisted) whatever the variable fields and whether or not a
commit could succeed — the timestamp check precedes row construction. -/
theorem save_data_missing_time_returns_400 (k : String) (s : WeatherStation)
    (p : List (String × Rat)) (db : DB) (c : Bool)
    (hv : validate_station k db.stations = .ok s) :
    save_data { authorization := some k, json := { time := none, vars := p } }
        db c =
      (.response missingTimeBody 400, db) := by
  simp [save_data, hv]

/-- C2 witness: Scenario C at the demo registry. -/
theorem save_data_missing_time_returns_400_witness :
    save_data
        { authorization := some "key-1",
          json := { time := none, vars := [("temperature", mkRat 43 2)] } }
        demoDB true =
      (.response missingTimeBody 400, demoDB) :=
  save_data_missing_time_returns_400 "key-1" demoStation
    [("temperature", mkRat 43 2)] demoDB true (by rfl)

/-- C3: for every POST /data request carrying no Authorization header, the
handler returns HTTP 401 with exactly the missing-credential body and
persists nothing, whatever the payload, store and commit oracle. -/
theorem save_data_no_auth_returns_401 (p : Payload) (db : DB) (c : Bool) :
    save_data { authorization := none, json := p } db c =
      (.response missingKeyBody 401, db) := rfl

/-- C4: a credential whose registry lookup yields zero matches, and one
whose lookup yields two or more, fail identically at the HTTP boundary:
403 with body status=error, message=Invalid API key, store unchanged. -/
theorem save_data_unresolvable_key_returns_403 (k : String) (p : Payload)
    (db : DB) (c : Bool)
    (h : (db.stations.filter (fun s => s.station_post_key == k)).length = 0 ∨
        2 ≤ (db.stations.filter (fun s => s.station_post_key == k)).length) :
    save_data { authorization := some k, json := p } db c =
      (.response invalidKeyBody 403, db) := by
  have hv : validate_station k db.stations = .error .noResultFound ∨
      validate_station k db.stations = .error .multipleResultsFound := by
    unfold validate_station
    rcases hl : db.stations.filter (fun s => s.station_post_key == k) with
      _ | ⟨a, _ | ⟨b, tl⟩⟩
    · rw [hl]
      exact Or.inl rfl
    · rw [hl] at h
      simp at h
    · rw [hl]
      exact Or.inr rfl
  rcases hv with hv | hv <;> simp [save_data, hv]

/-- C4 witness: an unknown key against the demo registry (zero matches)
and the shared key of the duplicated registry (two matches) both
produce the same 403 response. -/
theorem save_data_unresolvable_key_returns_403_witness :
    save_data
        { authorization := some "not-a-real-key",
          json := { time := some "2024-01-01T00:00:00Z", vars := [] } }
        demoDB true =
      (.response invalidKeyBody 403, demoDB) ∧
    save_data
        { authorization := some "key-1",
          json := { time := some "2024-01-01T00:00:00Z", vars := [] } }
        dupDB true =
      (.response invalidKeyBody 403, dupDB) :=
  ⟨save_data_unresolvable_key_returns_403 "not-a-real-key"
      { time := some "2024-01-01T00:00:00Z", vars := [] } demoDB true
      (by decide),
   save_data_unresolvable_key_returns_403 "key-1"
      { time := some "2024-01-01T00:00:00Z", vars := [] } dupDB true
      (by decide)⟩

/-- C5: when the single commit of the staged batch fails, the request
leaves the store exactly as it was — zero rows from the request are
visible afterwards, for every request and every starting store. -/
theorem save_data_commit_failure_leaves_store_unchanged (req : Request)
    (db : DB) :
    (save_data req db false).2 = db := by
  obtain ⟨auth, json⟩ := req
  cases auth with
  | none => rfl
  | some k =>
    cases hv : validate_station k db.stations with
    | error e => simp [save_data, hv]
    | ok s =>
      obtain ⟨time, vars⟩ := json
      cases time with
      | none => simp [save_data, hv]
      | some t =>
        cases hs : stageLoop s.station_id t vars varNames none with
        | error e => simp [save_data, hv, hs]
        | ok staged => simp [save_data, hv, hs]

/-- C6: ingestion is not idempotent — whenever a request is accepted
(201), it appends 3 rows, and submitting the identical request again is
accepted again and appends 3 further rows (6 in total over the starting
store): the second submission persists new rows instead of being
deduplicated against the first. -/
theorem save_data_not_idempotent (req : Request) (db : DB)
    (h : (save_data req db true).1 = .response successBody 201) :
    (save_data req db true).2.observations.length =
      db.observations.length + 3 ∧
    (save_data req (save_data req db true).2 true).1 =
      .response successBody 201 ∧
    (save_data req (save_data req db true).2 true).2.observations.length =
      db.observations.length + 6 := by
  obtain ⟨k, s, t, rows, ha, hv, ht, hs, hdb⟩ := save_data_ok_inv req db h
  have hlen : rows.length = 3 :=
    stageLoop_length s.station_id t req.json.vars varNames none rows hs
  have h1 : save_data req db true =
      (.response successBody 201,
       { db with observations := db.observations ++ rows }) :=
    save_data_ok_eq req db k s t rows ha hv ht hs
  have h2 : save_data req { db with observations := db.observations ++ rows }
      true =
      (.response successBody 201,
       { db with observations := (db.observations ++ rows) ++ rows }) :=
    save_data_ok_eq req { db with observations := db.observations ++ rows }
      k s t rows ha hv ht hs
  rw [h1]
  refine ⟨?_, ?_, ?_⟩
  · simp [hlen]
  · rw [h2]
  · rw [h2]
    simp [hlen]

/-- C6 witness: Scenario D submitted twice against the demo store. -/
theorem save_data_not_idempotent_witness :
    (save_data scenarioD demoDB true).2.observations.length =
      demoDB.observations.length + 3 ∧
    (save_data scenarioD (save_data scenarioD demoDB true).2 true).1 =
      .response successBody 201 ∧
    (save_data scenarioD (save_data scenarioD demoDB true).2
        true).2.observations.length =
      demoDB.observations.length + 6 :=
  save_data_not_idempotent scenarioD demoDB (by decide)

/-- C7: every request that passes authentication and the timestamp check
and whose staging loop and commit succeed is answered with HTTP 201 and
exactly the one-field body status=success — no field enumerates the
stored variables. -/
theorem save_data_success_returns_201 (req : Request) (db : DB) (k : String)
    (s : WeatherStation) (t : String) (rows : List WeatherObservation)
    (ha : req.authorization = some k)
    (hv : validate_station k db.stations = .ok s)
    (ht : req.json.time = some t)
    (hs : stageLoop s.station_id t req.json.vars varNames none = .ok rows) :
    (save_data req db true).1 = .response successBody 201 := by
  rw [save_data_ok_eq req db k s t rows ha hv ht hs]

/-- C7 witness: Scenario D against the demo store. -/
theorem save_data_success_returns_201_witness :
    (save_data scenarioD demoDB true).1 = .response successBody 201 :=
  save_data_success_returns_201 scenarioD demoDB "key-1" demoStation
    "2024-01-01T00:00:00Z"
    [{ station_id := 1, observation_datetime := "2024-01-01T00:00:00Z",
       var_name := "temperature", value := mkRat 43 2 },
     { station_id := 1, observation_datetime := "2024-01-01T00:00:00Z",
       var_name := "pressure", value := mkRat 43 2 },
     { station_id := 1, observation_datetime := "2024-01-01T00:00:00Z",
       var_name := "humidity", value := 55 }]
    rfl (by rfl) rfl (by rfl)

/-- C8: authentication is read-only — every request answered with a 401
or 403 structured response leaves the store exactly as it was. -/
theorem save_data_auth_failure_preserves_store (req : Request) (db : DB)
    (c : Bool) (body : List (String × String)) (n : Nat)
    (h : (save_data req db c).1 = .response body n)
    (hn : n = 401 ∨ n = 403) :
    (save_data req db c).2 = db := by
  obtain ⟨auth, json⟩ := req
  cases auth with
  | none => rfl
  | some k =>
    cases hv : validate_station k db.stations with
    | error e => simp [save_data, hv]
    | ok s =>
      obtain ⟨time, vars⟩ := json
      cases time with
      | none => simp [save_data, hv]
      | some t =>
        cases hs : stageLoop s.station_id t vars varNames none with
        | error e => simp [save_data, hv, hs]
        | ok staged =>
          cases c with
          | false => simp [save_data, hv, hs]
          | true =>
            have hres :
                (save_data { authorization := some k,
                             json := { time := some t, vars := vars } }
                  db true).1 = .response successBody 201 := by
              simp [save_data, hv, hs]
            rw [hres] at h
            injection h with hb hnn
            rcases hn with hn | hn <;> omega

/-- C8 witness: the 401 path at a concrete request preserves the demo
store. -/
theorem save_data_auth_failure_preserves_store_witness :
    (save_data { authorization := none,
                 json := { time := some "2024-01-01T00:00:00Z", vars := [] } }
        demoDB true).2 = demoDB :=
  save_data_auth_failure_preserves_store
    { authorization := none,
      json := { time := some "2024-01-01T00:00:00Z", vars := [] } }
    demoDB true missingKeyBody 401 rfl (Or.inl rfl)

/-- C9: a valid request whose payload has a time field but no temperature
key makes the loop read obs_value before any assignment: the handler
raises UnboundLocalError and reaches none of its structured responses,
and the store is unchanged. -/
theorem save_data_missing_temperature_raises (req : Request) (db : DB)
    (c : Bool) (k : String) (s : WeatherStation) (t : String)
    (ha : req.authorization = some k)
    (hv : validate_station k db.stations = .ok s)
    (ht : req.json.time = some t)
    (hm : lookupVar "temperature" req.json.vars = none) :
    save_data req db c = (.pythonError unboundLocalMsg, db) := by
  have hs : stageLoop s.station_id t req.json.vars varNames none =
      .error unboundLocalMsg := by
    simp only [varNames, stageLoop, hm]
  simp [save_data, ha, hv, ht, hs]

/-- C9 witness: valid key, time and humidity only. -/
theorem save_data_missing_temperature_raises_witness :
    save_data
        { authorization := some "key-1",
          json := { time := some "2024-01-01T00:00:00Z",
                    vars := [("humidity", 55)] } }
        demoDB true =
      (.pythonError unboundLocalMsg, demoDB) :=
  save_data_missing_temperature_raises
    { authorization := some "key-1",
      json := { time := some "2024-01-01T00:00:00Z",
                vars := [("humidity", 55)] } }
    demoDB true "key-1" demoStation "2024-01-01T00:00:00Z"
    rfl (by rfl) rfl (by decide)

/-- C1: evaluation of the handler at the Scenario D input — valid key,
time, temperature 21.5 and humidity 55, no pressure.  The request is
accepted with 201 but THREE rows are persisted, among them a pressure
row fabricated from the stale temperature value, because the loop
constructs a row even after the KeyError branch only logged a warning;
the claimed two-rows-and-none-for-pressure behavior does not hold. -/
theorem scenarioD_persists_stale_pressure_row :
    (save_data scenarioD demoDB true).1 = .response successBody 201 ∧
    (save_data scenarioD demoDB true).2.observations =
      [{ station_id := 1, observation_datetime := "2024-01-01T00:00:00Z",
         var_name := "temperature", value := mkRat 43 2 },
       { station_id := 1, observation_datetime := "2024-01-01T00:00:00Z",
         var_name := "pressure", value := mkRat 43 2 },
       { station_id := 1, observation_datetime := "2024-01-01T00:00:00Z",
         var_name := "humidity", value := 55 }] := by
  exact ⟨rfl, by decide⟩

/-- C10: whenever the variables loop completes without error it stages
exactly one row per enumerated variable name — always 3 rows, in the
order temperature, pressure, humidity — and a row staged for a variable
absent from the payload carries the value of the most recent present
variable earlier in that order. -/
theorem stageLoop_always_stages_three (sid : Nat) (t : String)
    (vars : List (String × Rat)) (rows : List WeatherObservation)
    (h : stageLoop sid t vars varNames none = .ok rows) :
    ∃ v0 v1 v2 : Rat,
      rows =
        [{ station_id := sid, observation_datetime := t,
           var_name := "temperature", value := v0 },
         { station_id := sid, observation_datetime := t,
           var_name := "pressure", value := v1 },
         { station_id := sid, observation_datetime := t,
           var_name := "humidity", value := v2 }] ∧
      lookupVar "temperature" vars = some v0 ∧
      (lookupVar "pressure" vars = none →
        some v1 = lastPresent vars ["temperature"]) ∧
      (lookupVar "humidity" vars = none →
        some v2 = lastPresent vars ["temperature", "pressure"]) := by
  cases h0 : lookupVar "temperature" vars with
  | none =>
    simp only [varNames, stageLoop, h0] at h
    exact Except.noConfusion h
  | some a =>
    cases h1 : lookupVar "pressure" vars with
    | none =>
      cases h2 : lookupVar "humidity" vars with
      | none =>
        simp only [varNames, stageLoop, h0, h1, h2] at h
        simp only [Except.ok.injEq] at h
        subst h
        exact ⟨a, a, a, rfl, rfl,
          fun _ => by simp [lastPresent, h0],
          fun _ => by simp [lastPresent, h0, h1]⟩
      | some c =>
        simp only [varNames, stageLoop, h0, h1, h2] at h
        simp only [Except.ok.injEq] at h
        subst h
        exact ⟨a, a, c, rfl, rfl,
          fun _ => by simp [lastPresent, h0],
          fun hh => Option.noConfusion hh⟩
    | some b =>
      cases h2 : lookupVar "humidity" vars with
      | none =>
        simp only [varNames, stageLoop, h0, h1, h2] at h
        simp only [Except.ok.injEq] at h
        subst h
        exact ⟨a, b, b, rfl, rfl,
          fun hh => Option.noConfusion hh,
          fun _ => by simp [lastPresent, h0, h1]⟩
      | some c =>
        simp only [varNames, stageLoop, h0, h1, h2] at h
        simp only [Except.ok.injEq] at h
        subst h
        exact ⟨a, b, c, rfl, rfl,
          fun hh => Option.noConfusion hh,
          fun hh => Option.noConfusion hh⟩

/-- C10 witness: temperature and humidity present, pressure absent — the
pressure row carries the temperature value. -/
theorem stageLoop_always_stages_three_witness :
    ∃ v0 v1 v2 : Rat,
      ([{ station_id := 1, observation_datetime := "t",
          var_name := "temperature", value := 2 },
        { station_id := 1, observation_datetime := "t",
          var_name := "pressure", value := 2 },
        { station_id := 1, observation_datetime := "t",
          var_name := "humidity", value := 3 }] :
          List WeatherObservation) =
        [{ station_id := 1, observation_datetime := "t",
           var_name := "temperature", value := v0 },
         { station_id := 1, observation_datetime := "t",
           var_name := "pressure", value := v1 },
         { station_id := 1, observation_datetime := "t",
           var_name := "humidity", value := v2 }] ∧
      lookupVar "temperature" [("temperature", 2), ("humidity", 3)] =
        some v0 ∧
      (lookupVar "pressure" [("temperature", 2), ("humidity", 3)] = none →
        some v1 =
          lastPresent [("temperature", 2), ("humidity", 3)] ["temperature"]) ∧
      (lookupVar "humidity" [("temperature", 2), ("humidity", 3)] = none →
        some v2 =
          lastPresent [("temperature", 2), ("humidity", 3)]
            ["temperature", "pressure"]) :=
  stageLoop_always_stages_three 1 "t" [("temperature", 2), ("humidity", 3)]
    [{ station_id := 1, observation_datetime := "t",
       var_name := "temperature", value := 2 },
     { station_id := 1, observation_datetime := "t",
       var_name := "pressure", value := 2 },
     { station_id := 1, observation_datetime := "t",
       var_name := "humidity", value := 3 }]
    (by rfl)

end WeatherCollect
